import Mathlib

/-!
Shallow embedding of the animation and asset-loading core of the
generic-3Dproduct-viewer repository (MaterialColorChanger.ts,
ProductItemUtility.ts, MeshLoader.ts), together with proofs about it.

Numeric values (color channels, durations, progress) are embedded as exact
rationals.  Material identity is embedded as a numeric id, and the mutable
`material.color` heap cells of the live scene graph are embedded as a store
mapping material ids to colors; mutating a material's color in place becomes
a pointwise store update.
-/

/-- A color as in three.js `Color`: three channels `r`, `g`, `b`. -/
structure Color where
  r : ℚ
  g : ℚ
  b : ℚ
deriving DecidableEq, Repr

/-- A material that may support flat-color assignment.  `supportsColor`
records the outcome of the `isColorMaterial` capability predicate of
MaterialUtility (the predicate is consumed abstractly, as in the source). -/
structure ColorMaterial where
  id : ℕ
  supportsColor : Bool
deriving DecidableEq, Repr

/-- The mutable `material.color` cells of the live scene graph, keyed by
material id. -/
abbrev MaterialStore : Type := ℕ → Color

/-- The `isColorMaterial` capability predicate ("supports flat color"). -/
def isColorMaterial (m : ColorMaterial) : Bool :=
  m.supportsColor

/-- `mesh.material` in three.js is either a single material or an array. -/
inductive MaterialSlot where
  | single (m : ColorMaterial)
  | multi (ms : List ColorMaterial)
deriving DecidableEq, Repr

/-- `Array.isArray(mesh.material) ? mesh.material : [mesh.material]`. -/
def MaterialSlot.toList : MaterialSlot → List ColorMaterial
  | .single m => [m]
  | .multi ms => ms

/-- Scene-graph object as seen by the color changer: an `isMesh` flag, the
material slot (only meaningful when `isMesh`), and child objects. -/
inductive Obj3D where
  | node (isMesh : Bool) (slot : MaterialSlot) (children : List Obj3D) : Obj3D

def Obj3D.isMesh : Obj3D → Bool
  | .node m _ _ => m

def Obj3D.slot : Obj3D → MaterialSlot
  | .node _ s _ => s

def Obj3D.children : Obj3D → List Obj3D
  | .node _ _ cs => cs

mutual

/-- three.js `Object3D.traverse`: the callback sees the node itself and then
every descendant, in preorder.  `traverseNodes o` is the list of visited
objects. -/
def traverseNodes : Obj3D → List Obj3D
  | .node m s cs => .node m s cs :: traverseList cs

def traverseList : List Obj3D → List Obj3D
  | [] => []
  | c :: rest => traverseNodes c ++ traverseList rest

end

/-- `d` occurs in the subtree rooted at `n` (reflexive-transitive child
closure). -/
inductive Subnode : Obj3D → Obj3D → Prop where
  | refl (n : Obj3D) : Subnode n n
  | child {d c n : Obj3D} (hc : c ∈ n.children) (hd : Subnode d c) : Subnode d n

/-- One entry of `changeColorLinearly`'s working set: `startColor` is
`material.color.clone()` (a by-value snapshot of the store cell at creation)
and `deltaColor = target − start`, computed once at creation. -/
structure AnimatableColorItem where
  startColor : Color
  deltaColor : Color
  material : ColorMaterial
deriving DecidableEq, Repr

/-- The animation kinds dispatched by the subscription in the
MaterialColorChanger constructor. -/
inductive MaterialAnimationType where
  | noAnimation
  | linear
deriving DecidableEq, Repr

/-- `MaterialColorSwapEventData`: the product item (as an id), an optional
explicit material list, an optional subtree root and the target color. -/
structure MaterialColorSwapEventData where
  productItem : ℕ
  animationType : MaterialAnimationType
  materials : Option (List ColorMaterial)
  rootObject : Option Obj3D
  targetColor : Color

/-- The record pushed by `tryAddAnimatableItems` for one qualifying
material. -/
def mkItem (store : MaterialStore) (target : Color) (m : ColorMaterial) :
    AnimatableColorItem :=
  { startColor := store m.id
  , deltaColor := ⟨target.r - (store m.id).r, target.g - (store m.id).g,
      target.b - (store m.id).b⟩
  , material := m }

/-- `tryAddAnimatableItems`: for each material, skip it unless
`isColorMaterial` holds, otherwise push an item with the snapshot start color
and the delta to the target. -/
def tryAddAnimatableItems (store : MaterialStore) (materials : List ColorMaterial)
    (items : List AnimatableColorItem) (targetColor : Color) :
    List AnimatableColorItem :=
  match materials with
  | [] => items
  | m :: rest =>
    if isColorMaterial m then
      tryAddAnimatableItems store rest (items ++ [mkItem store targetColor m]) targetColor
    else
      tryAddAnimatableItems store rest items targetColor

/-- The body of the `traverse` callback in `getAnimatableItems`: non-mesh
objects contribute nothing; for a mesh the (normalized) material list is fed
to `tryAddAnimatableItems`. -/
def meshContribution (store : MaterialStore) (target : Color)
    (items : List AnimatableColorItem) (o : Obj3D) : List AnimatableColorItem :=
  if o.isMesh then tryAddAnimatableItems store o.slot.toList items target else items

/-- `getAnimatableItems`: items from the explicit material list, then items
collected by traversing the subtree root, if any. -/
def getAnimatableItems (store : MaterialStore) (event : MaterialColorSwapEventData) :
    List AnimatableColorItem :=
  let items :=
    match event.materials with
    | some ms => tryAddAnimatableItems store ms [] event.targetColor
    | none => []
  match event.rootObject with
  | some root => (traverseNodes root).foldl (meshContribution store event.targetColor) items
  | none => items

/-- In-place mutation `material.color.setRGB(r, g, b)` as a store update. -/
def setStoreColor (store : MaterialStore) (id : ℕ) (c : Color) : MaterialStore :=
  fun j => if j = id then c else store j

/-- The color computed for one item at a given progress:
`start + progress * delta`, per channel. -/
def interp (item : AnimatableColorItem) (progress : ℚ) : Color :=
  ⟨item.startColor.r + progress * item.deltaColor.r,
   item.startColor.g + progress * item.deltaColor.g,
   item.startColor.b + progress * item.deltaColor.b⟩

/-- One loop iteration of the `doProgress` closure. -/
def applyItem (progress : ℚ) (store : MaterialStore) (item : AnimatableColorItem) :
    MaterialStore :=
  setStoreColor store item.material.id (interp item progress)

/-- The `doProgress` closure of `changeColorLinearly`: one tick at `progress`
sets every item's material color to `start + progress * delta`. -/
def doProgress (items : List AnimatableColorItem) (progress : ℚ)
    (store : MaterialStore) : MaterialStore :=
  items.foldl (applyItem progress) store

/-- Modelled from the spec: the category of an active event
(`ActiveProductItemEventType`, whose source file is not included); an
abstract identifier with decidable equality suffices for `clearEvents`. -/
abbrev ActiveProductItemEventType : Type := ℕ

def ActiveProductItemEventType.colorChange : ActiveProductItemEventType := 0

/-- Modelled from the spec: an active-event handle `{category, cancel}`; the
`id` field identifies the handle so that cancel invocations can be logged. -/
structure ActiveProductItemEvent where
  type : ActiveProductItemEventType
  id : ℕ
deriving DecidableEq, Repr

/-- `clearEvents` of ProductItemUtility: walk the active-event list from the
front; an entry whose type is in `types` has `cancelEvent(completeEvent)`
invoked and is spliced out (the loop index stays put), a non-matching entry
is kept (the index advances).  The result is the final list together with
the `(handle id, completeEvent)` cancel invocations in order. -/
def clearEvents (activeEvents : List ActiveProductItemEvent)
    (types : List ActiveProductItemEventType) (completeEvent : Bool) :
    List ActiveProductItemEvent × List (ℕ × Bool) :=
  match activeEvents with
  | [] => ([], [])
  | e :: rest =>
    if e.type ∈ types then
      let r := clearEvents rest types completeEvent
      (r.1, (e.id, completeEvent) :: r.2)
    else
      let r := clearEvents rest types completeEvent
      (e :: r.1, r.2)

/-- The animation instance created by `createAnimation` plus the
`requestAnimationFrame` call, recorded as data. -/
structure ScheduledAnimation where
  productItem : ℕ
  eventType : ActiveProductItemEventType
  duration : ℚ
  items : List AnimatableColorItem

/-- `changeColorLinearly`: build the working set; with `duration ≤ 0` apply
progress 1 synchronously and return (no animation is created, no frame is
scheduled); otherwise leave the store alone and schedule a single animation
shared by the whole batch. -/
def changeColorLinearly (event : MaterialColorSwapEventData) (duration : ℚ)
    (store : MaterialStore) : MaterialStore × Option ScheduledAnimation :=
  let items := getAnimatableItems store event
  if duration ≤ 0 then
    (doProgress items 1 store, none)
  else
    (store, some { productItem := event.productItem
                 , eventType := ActiveProductItemEventType.colorChange
                 , duration := duration
                 , items := items })

/-- The subscription installed by the MaterialColorChanger constructor:
`None` dispatches with duration 0, `Linear` with duration 250. -/
def dispatchColorSwap (event : MaterialColorSwapEventData) (store : MaterialStore) :
    MaterialStore × Option ScheduledAnimation :=
  match event.animationType with
  | .noAnimation => changeColorLinearly event 0 store
  | .linear => changeColorLinearly event 250 store

/-- The last item of a batch writing to material id `id`; its write is the
one left in the store after a tick. -/
def lastWriteFor (id : ℕ) : List AnimatableColorItem → Option AnimatableColorItem
  | [] => none
  | it :: rest =>
    match lastWriteFor id rest with
    | some w => some w
    | none => if it.material.id = id then some it else none

/-- What one visited object adds to the working set: nothing unless it is a
mesh, otherwise one item per material passing `isColorMaterial`. -/
def subtreeContribution (store : MaterialStore) (target : Color) (o : Obj3D) :
    List AnimatableColorItem :=
  if o.isMesh then ((o.slot.toList).filter isColorMaterial).map (mkItem store target)
  else []

/-- A JavaScript string, embedded as its character list so that the string
operations of MeshLoader stay kernel-computable. -/
abbrev JSString : Type := List Char

/-- JavaScript `String.prototype.split` with a one-character separator.  As
in JavaScript, the result is never empty. -/
def splitOnChar (sep : Char) : JSString → List JSString
  | [] => [[]]
  | c :: rest =>
    let r := splitOnChar sep rest
    if c = sep then [] :: r
    else
      match r with
      | [] => [[c]]
      | hd :: tl => (c :: hd) :: tl

/-- JavaScript `String.prototype.toLowerCase`, character-wise. -/
def toLowerCase (s : JSString) : JSString :=
  s.map Char.toLower

/-- `const fileParts = model.filename.split("."); fileParts[fileParts.length
- 1].toLowerCase()` — JavaScript `split` never yields an empty array, so the
last-element access is total. -/
def fileExtension (filename : JSString) : JSString :=
  toLowerCase ((splitOnChar '.' filename).getLastD [])

/-- A scene material as manipulated by MeshLoader.  `id` is the material's
identity: two references carry the same material object exactly when their
ids agree.  The remaining fields mirror the mutable material state the
loader touches. -/
structure MeshMaterial where
  id : ℕ
  name : JSString
  map : Option JSString := none
  normalMap : Option JSString := none
  envMap : Option ℕ := none
  envMapIntensity : ℚ := 1
  needsUpdate : Bool := false
  doubleSided : Bool := false
deriving DecidableEq, Repr

/-- A scene-graph node as seen by MeshLoader: mesh flag, optional material,
the two shadow flags and the children. -/
inductive SceneNode where
  | node (isMesh : Bool) (material : Option MeshMaterial)
      (castShadow receiveShadow : Bool) (children : List SceneNode) : SceneNode

def SceneNode.isMesh : SceneNode → Bool
  | .node m _ _ _ _ => m

def SceneNode.material : SceneNode → Option MeshMaterial
  | .node _ mat _ _ _ => mat

def SceneNode.castShadow : SceneNode → Bool
  | .node _ _ c _ _ => c

def SceneNode.receiveShadow : SceneNode → Bool
  | .node _ _ _ r _ => r

def SceneNode.children : SceneNode → List SceneNode
  | .node _ _ _ _ cs => cs

def SceneNode.withMaterial : SceneNode → Option MeshMaterial → SceneNode
  | .node m _ c r cs, mat => .node m mat c r cs

def SceneNode.withChildren : SceneNode → List SceneNode → SceneNode
  | .node m mat c r _, cs => .node m mat c r cs

/-- `MaterialInfo`: a tagged variant, either a path to an MTL
material-definition file or raw diffuse/normal textures, each with the
optional double-sided flag. -/
inductive MaterialInfo where
  | fromMaterialFile (mtl : JSString) (renderBackface : Bool) : MaterialInfo
  | rawTextures (diffuseTexture : JSString) (normalTexture : Option JSString)
      (renderBackface : Bool) : MaterialInfo
deriving DecidableEq, Repr

def MaterialInfo.renderBackface : MaterialInfo → Bool
  | .fromMaterialFile _ rb => rb
  | .rawTextures _ _ rb => rb

/-- `Model3D`: the immutable model descriptor. -/
structure Model3D where
  filename : JSString
  materialInfo : MaterialInfo

/-- `ModelLoadedEventData`: the delivered result, an optional scene subtree
plus the descriptor that was passed in. -/
structure ModelLoadedEventData where
  object : Option SceneNode
  model : Model3D

/-- The outcome of a settled JavaScript promise. -/
inductive PromiseResult (α : Type) where
  | resolved (value : α) : PromiseResult α
  | rejected (reason : JSString) : PromiseResult α

mutual

/-- `setReceiveShadows`: set both shadow flags on every node of the given
list and recurse into the children, unconditionally. -/
def setShadowNode : SceneNode → SceneNode
  | .node m mat _ _ cs => .node m mat true true (setShadowList cs)

def setShadowList : List SceneNode → List SceneNode
  | [] => []
  | c :: rest => setShadowNode c :: setShadowList rest

end

mutual

/-- `trySetEnvironmentTexture`: on every node carrying a material, point the
material at the environment texture, set the fixed low intensity 0.0625 and
mark it dirty; recurse into the children. -/
def setEnvNode (texId : ℕ) : SceneNode → SceneNode
  | .node m mat c r cs =>
    .node m (mat.map (fun mm =>
      { mm with
        envMap := some texId
        envMapIntensity := (0.0625 : ℚ)
        needsUpdate := true })) c r (setEnvList texId cs)

def setEnvList (texId : ℕ) : List SceneNode → List SceneNode
  | [] => []
  | c :: rest => setEnvNode texId c :: setEnvList texId rest

end

mutual

/-- `trySetBackfaceRendering`: on every node carrying a material, set the
material's render side to double-sided; recurse into the children. -/
def setBackfaceNode : SceneNode → SceneNode
  | .node m mat c r cs =>
    .node m (mat.map (fun mm => { mm with doubleSided := true })) c r
      (setBackfaceList cs)

def setBackfaceList : List SceneNode → List SceneNode
  | [] => []
  | c :: rest => setBackfaceNode c :: setBackfaceList rest

end

mutual

/-- Both shadow flags hold on this node and on every node below it. -/
def nodeAllShadowed : SceneNode → Bool
  | .node _ _ c r cs => c && r && listAllShadowed cs

def listAllShadowed : List SceneNode → Bool
  | [] => true
  | c :: rest => nodeAllShadowed c && listAllShadowed rest

end

/-- One child of the MTL branch of `loadMaterial`: the name of the child's
current material is read (a child without a material makes the source throw
on the name access, embedded as `none`), then looked up in the loaded
material library; a hit replaces the child's material, a miss keeps the
default one. -/
def replaceChildMaterial (lib : JSString → Option MeshMaterial) (child : SceneNode) :
    Option SceneNode :=
  match child.material with
  | none => none
  | some mm =>
    match lib mm.name with
    | some newMaterial => some (child.withMaterial (some newMaterial))
    | none => some child

/-- The total version of `replaceChildMaterial`, defined for any child; the
two agree on children that carry a material. -/
def replaceChildMaterialTotal (lib : JSString → Option MeshMaterial)
    (child : SceneNode) : SceneNode :=
  match child.material with
  | none => child
  | some mm =>
    match lib mm.name with
    | some newMaterial => child.withMaterial (some newMaterial)
    | none => child

/-- The id of the material a child carrying `mm` references after the MTL
branch: the library hit when the name matches, otherwise the original
default material. -/
def mtlTargetId (lib : JSString → Option MeshMaterial) (mm : MeshMaterial) : ℕ :=
  match lib mm.name with
  | some newMaterial => newMaterial.id
  | none => mm.id

/-- `loadMaterial`: the MTL branch loads the material library (`mtlLib` at
the MTL path) and replaces each direct child's material by name; the
raw-texture branch builds one `MeshPhongMaterial` — `freshId` is the new
object's identity — holding the diffuse and optional normal texture and
assigns it to every direct child.  Either branch runs the backface pass over
`[object]` when requested before resolving.  `none` means the source threw
before resolving (the MTL branch reading the material name of a child
without a material). -/
def loadMaterial (freshId : ℕ) (mtlLib : JSString → JSString → Option MeshMaterial)
    (object : SceneNode) (materialInfo : MaterialInfo) : Option SceneNode :=
  match materialInfo with
  | .fromMaterialFile mtlPath rb =>
    match object.children.mapM (replaceChildMaterial (mtlLib mtlPath)) with
    | none => none
    | some cs =>
      let object := object.withChildren cs
      some (if rb then setBackfaceNode object else object)
  | .rawTextures diffuse normal rb =>
    let material : MeshMaterial :=
      { id := freshId, name := [], map := some diffuse, normalMap := normal }
    let cs := object.children.map (fun child => child.withMaterial (some material))
    let object := object.withChildren cs
    some (if rb then setBackfaceNode object else object)

/-- The obj pipeline once the OBJ loader has delivered `group`: resolve the
materials, run `setReceiveShadows([group])`, resolve with `group`.  `none`
means the material stage threw and the promise never settles. -/
def loadObjCompleted (freshId : ℕ) (mtlLib : JSString → JSString → Option MeshMaterial)
    (group : SceneNode) (materialInfo : MaterialInfo) : Option SceneNode :=
  (loadMaterial freshId mtlLib group materialInfo).map setShadowNode

/-- The gltf pipeline once the scene document and the environment texture
are both ready: flatten every scene's children into a fresh `Group` (whose
own shadow flags keep their defaults, false), run the shadow pass and the
environment pass over the children, then the backface pass when requested,
and resolve with the container. -/
def loadGltfCompleted (scenes : List SceneNode) (envTexId : ℕ)
    (materialInfo : MaterialInfo) : SceneNode :=
  let children := scenes.flatMap SceneNode.children
  let children := setShadowList children
  let children := setEnvList envTexId children
  let children :=
    if materialInfo.renderBackface then setBackfaceList children else children
  .node false none false false children

/-- `loadMesh`: dispatch on the lowercased extension of the descriptor's
filename; obj and gltf run their pipelines, any other extension resolves at
once with `object` absent.  The oracles stand for the collaborating loaders:
`rawObj` is the group the OBJ loader delivers for a filename, `rawGltfScenes`
the scene list the GLTF loader delivers, `mtlLib` the material library the
MTL loader delivers for a path, and `envTexId` the shared environment
texture.  `none` means a stage threw and the promise never settles;
otherwise the promise's outcome is returned. -/
def loadMesh (freshId : ℕ) (mtlLib : JSString → JSString → Option MeshMaterial)
    (rawObj : JSString → SceneNode) (rawGltfScenes : JSString → List SceneNode)
    (envTexId : ℕ) (model : Model3D) : Option (PromiseResult ModelLoadedEventData) :=
  let ext := fileExtension model.filename
  if ext = "obj".toList then
    (loadObjCompleted freshId mtlLib (rawObj model.filename) model.materialInfo).map
      (fun object => .resolved { object := some object, model := model })
  else if ext = "gltf".toList then
    some (.resolved
      { object := some (loadGltfCompleted (rawGltfScenes model.filename) envTexId
          model.materialInfo)
      , model := model })
  else
    some (.resolved { object := none, model := model })

/-- Whether a settled `loadMesh` promise delivered a subtree all of whose
nodes carry both shadow flags (vacuously true when no subtree was
delivered). -/
def deliveredAllShadowed : PromiseResult ModelLoadedEventData → Bool
  | .resolved d =>
    match d.object with
    | some o => nodeAllShadowed o
    | none => true
  | .rejected _ => true

/-! Supporting lemmas for the MaterialColorChanger embedding. -/

theorem tryAddAnimatableItems_eq (store : MaterialStore) (materials : List ColorMaterial)
    (items : List AnimatableColorItem) (target : Color) :
    tryAddAnimatableItems store materials items target =
      items ++ (materials.filter isColorMaterial).map (mkItem store target) := by
  induction materials generalizing items with
  | nil => simp [tryAddAnimatableItems]
  | cons m rest ih =>
    by_cases h : isColorMaterial m = true
    · simp [tryAddAnimatableItems, h, ih]
    · simp [tryAddAnimatableItems, h, ih]

theorem traverseList_eq (l : List Obj3D) :
    traverseList l = l.flatMap traverseNodes := by
  induction l with
  | nil => simp [traverseList]
  | cons c rest ih => simp [traverseList, ih]

theorem self_mem_traverseNodes (o : Obj3D) : o ∈ traverseNodes o := by
  cases o with
  | node m s cs => simp [traverseNodes]

theorem subnode_mem_traverseNodes {d n : Obj3D} (h : Subnode d n) :
    d ∈ traverseNodes n := by
  induction h with
  | refl => exact self_mem_traverseNodes _
  | child hc hd ih =>
    rename_i c n'
    cases n' with
    | node m s cs =>
      simp only [Obj3D.children] at hc
      simp only [traverseNodes, List.mem_cons]
      right
      rw [traverseList_eq]
      exact List.mem_flatMap.mpr ⟨c, hc, ih⟩

theorem foldl_meshContribution (store : MaterialStore) (target : Color)
    (nodes : List Obj3D) (items : List AnimatableColorItem) :
    nodes.foldl (meshContribution store target) items =
      items ++ nodes.flatMap (subtreeContribution store target) := by
  induction nodes generalizing items with
  | nil => simp
  | cons o rest ih =>
    rw [List.foldl_cons, ih]
    by_cases h : o.isMesh = true
    · simp [meshContribution, subtreeContribution, h, tryAddAnimatableItems_eq]
    · simp [meshContribution, subtreeContribution, h]

theorem getAnimatableItems_eq (store : MaterialStore)
    (event : MaterialColorSwapEventData) :
    getAnimatableItems store event =
      ((event.materials.getD []).filter isColorMaterial).map
          (mkItem store event.targetColor) ++
        event.rootObject.elim []
          (fun root => (traverseNodes root).flatMap
            (subtreeContribution store event.targetColor)) := by
  unfold getAnimatableItems
  cases hm : event.materials with
  | none =>
    cases hr : event.rootObject with
    | none => simp
    | some root => simp [foldl_meshContribution]
  | some ms =>
    cases hr : event.rootObject with
    | none => simp [tryAddAnimatableItems_eq]
    | some root => simp [tryAddAnimatableItems_eq, foldl_meshContribution]

theorem mem_getAnimatableItems (store : MaterialStore)
    (event : MaterialColorSwapEventData) {it : AnimatableColorItem}
    (h : it ∈ getAnimatableItems store event) :
    ∃ m, isColorMaterial m = true ∧ it = mkItem store event.targetColor m := by
  rw [getAnimatableItems_eq] at h
  rcases List.mem_append.mp h with h | h
  · rcases List.mem_map.mp h with ⟨m, hm, rfl⟩
    exact ⟨m, (List.mem_filter.mp hm).2, rfl⟩
  · cases hr : event.rootObject with
    | none => rw [hr] at h; simp at h
    | some root =>
      rw [hr] at h
      simp only [Option.elim] at h
      rcases List.mem_flatMap.mp h with ⟨o, _, ho⟩
      unfold subtreeContribution at ho
      by_cases hm : o.isMesh = true
      · rw [if_pos hm] at ho
        rcases List.mem_map.mp ho with ⟨m, hmf, rfl⟩
        exact ⟨m, (List.mem_filter.mp hmf).2, rfl⟩
      · rw [if_neg hm] at ho
        simp at ho

theorem interp_mkItem_one (store : MaterialStore) (target : Color)
    (m : ColorMaterial) : interp (mkItem store target m) 1 = target := by
  cases target with
  | mk r g b =>
    simp only [interp, mkItem, Color.mk.injEq]
    refine ⟨by ring, by ring, by ring⟩

theorem doProgress_apply (items : List AnimatableColorItem) (p : ℚ)
    (store : MaterialStore) (j : ℕ) :
    doProgress items p store j =
      match lastWriteFor j items with
      | some w => interp w p
      | none => store j := by
  induction items generalizing store with
  | nil => rfl
  | cons it rest ih =>
    show doProgress rest p (applyItem p store it) j = _
    rw [ih]
    cases hl : lastWriteFor j rest with
    | some w => simp [lastWriteFor, hl]
    | none =>
      simp only [lastWriteFor, hl, applyItem, setStoreColor]
      by_cases hid : it.material.id = j
      · subst hid
        simp
      · rw [if_neg (fun hh => hid hh.symm), if_neg hid]

theorem lastWriteFor_mem {j : ℕ} {items : List AnimatableColorItem}
    {w : AnimatableColorItem} (h : lastWriteFor j items = some w) :
    w ∈ items ∧ w.material.id = j := by
  induction items with
  | nil => simp [lastWriteFor] at h
  | cons it rest ih =>
    cases hl : lastWriteFor j rest with
    | some w' =>
      rw [lastWriteFor, hl] at h
      obtain rfl : w' = w := by injection h
      exact ⟨List.mem_cons_of_mem _ (ih hl).1, (ih hl).2⟩
    | none =>
      rw [lastWriteFor, hl] at h
      by_cases hid : it.material.id = j
      · rw [if_pos hid] at h
        obtain rfl : it = w := by injection h
        exact ⟨List.mem_cons_self _ _, hid⟩
      · rw [if_neg hid] at h
        exact absurd h (by simp)

theorem lastWriteFor_of_mem {items : List AnimatableColorItem}
    {it : AnimatableColorItem} (h : it ∈ items) :
    ∃ w, lastWriteFor it.material.id items = some w := by
  induction items with
  | nil => simp at h
  | cons hd rest ih =>
    cases hl : lastWriteFor it.material.id rest with
    | some w => exact ⟨w, by rw [lastWriteFor, hl]⟩
    | none =>
      rcases List.mem_cons.mp h with rfl | hmem
      · exact ⟨it, by rw [lastWriteFor, hl, if_pos rfl]⟩
      · rcases ih hmem with ⟨w, hw⟩
        rw [hl] at hw
        exact absurd hw (by simp)

theorem doProgress_comp (items : List AnimatableColorItem) (p q : ℚ)
    (s : MaterialStore) :
    doProgress items p (doProgress items q s) = doProgress items p s := by
  funext j
  rw [doProgress_apply items p (doProgress items q s) j, doProgress_apply items p s j]
  cases hl : lastWriteFor j items with
  | some w => rfl
  | none =>
    show doProgress items q s j = s j
    rw [doProgress_apply items q s j, hl]

/-- Claim C1: for every `AnimatableColorItem` in a `changeColor` batch and
every progress `p`, the color applied to the item's material on a tick is
`start + p * delta` per channel, where `delta = target - start` is fixed at
item creation; at `p = 1` the applied color is exactly the target, and the
color written by a tick never depends on values accumulated by earlier
ticks (re-ticking after any earlier tick yields the same store as ticking
the original store). -/
theorem changeColor_lerp_closed_form :
    (∀ (store : MaterialStore) (mats : List ColorMaterial)
        (items : List AnimatableColorItem) (target : Color)
        (it : AnimatableColorItem),
        it ∈ tryAddAnimatableItems store mats items target →
        it ∈ items ∨
          (it.startColor = store it.material.id ∧
            it.deltaColor = ⟨target.r - it.startColor.r, target.g - it.startColor.g,
              target.b - it.startColor.b⟩ ∧
            (∀ (p : ℚ) (s : MaterialStore),
              applyItem p s it it.material.id = interp it p) ∧
            interp it 1 = target)) ∧
      ∀ (items : List AnimatableColorItem) (p q : ℚ) (s : MaterialStore),
        doProgress items p (doProgress items q s) = doProgress items p s := by
  constructor
  · intro store mats items target it hmem
    rw [tryAddAnimatableItems_eq] at hmem
    rcases List.mem_append.mp hmem with h | h
    · exact Or.inl h
    · rcases List.mem_map.mp h with ⟨m, _, rfl⟩
      refine Or.inr ⟨rfl, rfl, ?_, interp_mkItem_one store target m⟩
      intro p s
      simp [applyItem, setStoreColor]
  · exact doProgress_comp

/-- Witness for C1: a concrete item created by `tryAddAnimatableItems`
reaches exactly the target color at progress 1. -/
theorem changeColor_lerp_closed_form_witness :
    interp (mkItem (fun _ => ⟨0, 0, 0⟩) ⟨1, 1/2, 0⟩ ⟨5, true⟩) 1 = ⟨1, 1/2, 0⟩ := by
  have h := changeColor_lerp_closed_form.1 (fun _ => ⟨0, 0, 0⟩) [⟨5, true⟩] []
      ⟨1, 1/2, 0⟩ (mkItem (fun _ => ⟨0, 0, 0⟩) ⟨1, 1/2, 0⟩ ⟨5, true⟩)
      (by
        rw [tryAddAnimatableItems_eq]
        exact List.mem_append_right _ (List.mem_map.mpr
          ⟨⟨5, true⟩, List.mem_filter.mpr ⟨List.mem_singleton_self _, rfl⟩, rfl⟩))
  rcases h with h | h
  · simp at h
  · exact h.2.2.2

/-- Claim C2: with requested duration ≤ 0, `changeColorLinearly` applies
progress 1 synchronously to every item of the batch — afterwards every
item's material carries the target color — and returns with no animation
created and no frame scheduled. -/
theorem changeColor_zero_duration (store : MaterialStore)
    (event : MaterialColorSwapEventData) (duration : ℚ) (hd : duration ≤ 0) :
    changeColorLinearly event duration store =
      (doProgress (getAnimatableItems store event) 1 store, none) ∧
      ∀ it ∈ getAnimatableItems store event,
        (changeColorLinearly event duration store).1 it.material.id =
          event.targetColor := by
  have heq : changeColorLinearly event duration store =
      (doProgress (getAnimatableItems store event) 1 store, none) := by
    unfold changeColorLinearly
    rw [if_pos hd]
  refine ⟨heq, ?_⟩
  intro it hit
  rw [heq]
  rcases lastWriteFor_of_mem hit with ⟨w, hw⟩
  have hwm := lastWriteFor_mem hw
  rcases mem_getAnimatableItems store event hwm.1 with ⟨m, _, hwk⟩
  show doProgress (getAnimatableItems store event) 1 store it.material.id =
    event.targetColor
  rw [doProgress_apply, hw, hwk]
  exact interp_mkItem_one store event.targetColor m

/-- Witness for C2 at a concrete event: one material, target red, duration
0; the material's color afterwards is the target. -/
theorem changeColor_zero_duration_witness :
    (changeColorLinearly
        { productItem := 0
        , animationType := .noAnimation
        , materials := some [⟨3, true⟩]
        , rootObject := none
        , targetColor := ⟨1, 0, 0⟩ } 0 (fun _ => ⟨0, 0, 0⟩)).1 3 = ⟨1, 0, 0⟩ := by
  have h := (changeColor_zero_duration (fun _ => ⟨0, 0, 0⟩)
      { productItem := 0
      , animationType := .noAnimation
      , materials := some [⟨3, true⟩]
      , rootObject := none
      , targetColor := ⟨1, 0, 0⟩ } 0 le_rfl).2
      (mkItem (fun _ => ⟨0, 0, 0⟩) ⟨1, 0, 0⟩ ⟨3, true⟩)
      (by
        rw [getAnimatableItems_eq]
        exact List.mem_append_left _ (List.mem_map.mpr
          ⟨⟨3, true⟩, List.mem_filter.mpr ⟨List.mem_singleton_self _, rfl⟩, rfl⟩))
  exact h

/-- Claim C3: `clearEvents` cancels (with the given flag) exactly the
entries whose category is in the set, removes exactly those, keeps every
other entry untouched and in order, and is a total no-op on the list when
nothing matches. -/
theorem clearEvents_spec (l : List ActiveProductItemEvent)
    (types : List ActiveProductItemEventType) (complete : Bool) :
    clearEvents l types complete =
      (l.filter (fun e => decide (e.type ∉ types)),
        (l.filter (fun e => decide (e.type ∈ types))).map
          (fun e => (e.id, complete))) ∧
      ((∀ e ∈ l, e.type ∉ types) → clearEvents l types complete = (l, [])) := by
  have main : clearEvents l types complete =
      (l.filter (fun e => decide (e.type ∉ types)),
        (l.filter (fun e => decide (e.type ∈ types))).map
          (fun e => (e.id, complete))) := by
    induction l with
    | nil => simp [clearEvents]
    | cons e rest ih =>
      by_cases h : e.type ∈ types
      · simp [clearEvents, h, ih]
      · simp [clearEvents, h, ih]
  refine ⟨main, fun hnone => ?_⟩
  rw [main]
  have h1 : l.filter (fun e => decide (e.type ∉ types)) = l :=
    List.filter_eq_self.mpr (fun e he => by simpa using hnone e he)
  have h2 : l.filter (fun e => decide (e.type ∈ types)) = [] :=
    List.filter_eq_nil_iff.mpr (fun e he => by simpa using hnone e he)
  rw [h1, h2]
  rfl

/-- Witness for C3: an entity whose single active event matches no category
in the set is left untouched with no cancel invoked. -/
theorem clearEvents_spec_witness :
    clearEvents [⟨1, 10⟩] [0] true = ([⟨1, 10⟩], []) :=
  (clearEvents_spec [⟨1, 10⟩] [0] true).2 (by decide)

/-- Claim C6: building the animatable item set from a subtree root visits
every descendant of the root, non-mesh objects contribute nothing, and of a
mesh's materials exactly those passing `isColorMaterial` become items; the
whole computation is total (nothing errors). -/
theorem getAnimatableItems_traversal (store : MaterialStore)
    (event : MaterialColorSwapEventData) (root : Obj3D)
    (hroot : event.rootObject = some root) :
    (∀ d, Subnode d root → d ∈ traverseNodes root) ∧
      getAnimatableItems store event =
        ((event.materials.getD []).filter isColorMaterial).map
            (mkItem store event.targetColor) ++
          (traverseNodes root).flatMap
            (subtreeContribution store event.targetColor) := by
  refine ⟨fun d hd => subnode_mem_traverseNodes hd, ?_⟩
  rw [getAnimatableItems_eq, hroot]
  rfl

/-- Witness for C6: a concrete subtree with a non-mesh root carrying a
(never-inspected) material slot, one mesh child with a qualifying and a
non-qualifying material, and one mesh child whose material does not qualify;
exactly one item results. -/
theorem getAnimatableItems_traversal_witness :
    getAnimatableItems (fun _ => ⟨0, 0, 0⟩)
      { productItem := 0
      , animationType := .linear
      , materials := none
      , rootObject := some (.node false (.single ⟨9, true⟩)
          [.node true (.multi [⟨1, true⟩, ⟨2, false⟩]) [],
           .node true (.single ⟨4, false⟩) []])
      , targetColor := ⟨1, 0, 0⟩ } =
      [{ startColor := ⟨0, 0, 0⟩, deltaColor := ⟨1, 0, 0⟩, material := ⟨1, true⟩ }] := by
  rw [(getAnimatableItems_traversal (fun _ => ⟨0, 0, 0⟩)
      { productItem := 0
      , animationType := .linear
      , materials := none
      , rootObject := some (.node false (.single ⟨9, true⟩)
          [.node true (.multi [⟨1, true⟩, ⟨2, false⟩]) [],
           .node true (.single ⟨4, false⟩) []])
      , targetColor := ⟨1, 0, 0⟩ }
      (.node false (.single ⟨9, true⟩)
          [.node true (.multi [⟨1, true⟩, ⟨2, false⟩]) [],
           .node true (.single ⟨4, false⟩) []]) rfl).2]
  norm_num [traverseNodes, traverseList, subtreeContribution, mkItem,
    isColorMaterial, MaterialSlot.toList, Obj3D.isMesh, Obj3D.slot]

/-- Claim C9: `startColor` is a by-value snapshot of the material's color at
item creation and `deltaColor = target − start` is computed exactly once
there; what a tick writes for an item is a function of these creation-time
fields alone, so mutating the live material colors between creation and a
tick (as later ticks do) influences neither the fields nor the written
value, and cells no item writes to pass through a tick unchanged. -/
theorem snapshot_immutable :
    (∀ (store : MaterialStore) (mats : List ColorMaterial)
        (items : List AnimatableColorItem) (target : Color)
        (it : AnimatableColorItem),
        it ∈ tryAddAnimatableItems store mats items target →
        it ∈ items ∨
          (it.startColor = store it.material.id ∧
            it.deltaColor = ⟨target.r - (store it.material.id).r,
              target.g - (store it.material.id).g,
              target.b - (store it.material.id).b⟩)) ∧
      (∀ (items : List AnimatableColorItem) (p : ℚ) (s : MaterialStore) (j : ℕ)
          (w : AnimatableColorItem), lastWriteFor j items = some w →
          doProgress items p s j = interp w p) ∧
      ∀ (items : List AnimatableColorItem) (p : ℚ) (s : MaterialStore) (j : ℕ),
        lastWriteFor j items = none → doProgress items p s j = s j := by
  refine ⟨?_, ?_, ?_⟩
  · intro store mats items target it hmem
    rw [tryAddAnimatableItems_eq] at hmem
    rcases List.mem_append.mp hmem with h | h
    · exact Or.inl h
    · rcases List.mem_map.mp h with ⟨m, _, rfl⟩
      exact Or.inr ⟨rfl, rfl⟩
  · intro items p s j w hw
    rw [doProgress_apply, hw]
  · intro items p s j hw
    rw [doProgress_apply, hw]

/-- Witness for C9: with one concrete item, a tick over a store mutated
after creation still writes the value computed from the creation-time
snapshot. -/
theorem snapshot_immutable_witness :
    doProgress [⟨⟨0, 0, 0⟩, ⟨1, 0, 0⟩, ⟨3, true⟩⟩] 1 (fun _ => ⟨9, 9, 9⟩) 3 =
      ⟨1, 0, 0⟩ := by
  have h := snapshot_immutable.2.1
      [⟨⟨0, 0, 0⟩, ⟨1, 0, 0⟩, ⟨3, true⟩⟩] 1 (fun _ => ⟨9, 9, 9⟩) 3
      ⟨⟨0, 0, 0⟩, ⟨1, 0, 0⟩, ⟨3, true⟩⟩ (by rfl)
  rw [h]
  norm_num [interp]

/-! Supporting lemmas for the MeshLoader embedding. -/

theorem children_withChildren (n : SceneNode) (cs : List SceneNode) :
    (n.withChildren cs).children = cs := by
  cases n
  rfl

theorem material_withMaterial (n : SceneNode) (mat : Option MeshMaterial) :
    (n.withMaterial mat).material = mat := by
  cases n
  rfl

theorem setShadowList_eq (l : List SceneNode) :
    setShadowList l = l.map setShadowNode := by
  induction l with
  | nil => rfl
  | cons c rest ih => simp [setShadowList, ih]

theorem setEnvList_eq (texId : ℕ) (l : List SceneNode) :
    setEnvList texId l = l.map (setEnvNode texId) := by
  induction l with
  | nil => rfl
  | cons c rest ih => simp [setEnvList, ih]

theorem setBackfaceList_eq (l : List SceneNode) :
    setBackfaceList l = l.map setBackfaceNode := by
  induction l with
  | nil => rfl
  | cons c rest ih => simp [setBackfaceList, ih]

theorem children_setBackfaceNode (n : SceneNode) :
    (setBackfaceNode n).children = setBackfaceList n.children := by
  cases n
  rfl

theorem material_setBackfaceNode (n : SceneNode) :
    (setBackfaceNode n).material =
      n.material.map (fun mm => { mm with doubleSided := true }) := by
  cases n
  rfl

theorem materialIds_setBackfaceNode (n : SceneNode) :
    ((setBackfaceNode n).material).map MeshMaterial.id =
      (n.material).map MeshMaterial.id := by
  cases n with
  | node m mat c r cs => cases mat <;> rfl

mutual

theorem nodeAllShadowed_setShadowNode (n : SceneNode) :
    nodeAllShadowed (setShadowNode n) = true := by
  cases n with
  | node m mat c r cs =>
    simp [setShadowNode, nodeAllShadowed, listAllShadowed_setShadowList cs]

theorem listAllShadowed_setShadowList (l : List SceneNode) :
    listAllShadowed (setShadowList l) = true := by
  cases l with
  | nil => rfl
  | cons c rest =>
    simp [setShadowList, listAllShadowed, nodeAllShadowed_setShadowNode c,
      listAllShadowed_setShadowList rest]

end

mutual

theorem nodeAllShadowed_setEnvNode (texId : ℕ) (n : SceneNode) :
    nodeAllShadowed (setEnvNode texId n) = nodeAllShadowed n := by
  cases n with
  | node m mat c r cs =>
    simp [setEnvNode, nodeAllShadowed, listAllShadowed_setEnvList texId cs]

theorem listAllShadowed_setEnvList (texId : ℕ) (l : List SceneNode) :
    listAllShadowed (setEnvList texId l) = listAllShadowed l := by
  cases l with
  | nil => rfl
  | cons c rest =>
    simp [setEnvList, listAllShadowed, nodeAllShadowed_setEnvNode texId c,
      listAllShadowed_setEnvList texId rest]

end

mutual

theorem nodeAllShadowed_setBackfaceNode (n : SceneNode) :
    nodeAllShadowed (setBackfaceNode n) = nodeAllShadowed n := by
  cases n with
  | node m mat c r cs =>
    simp [setBackfaceNode, nodeAllShadowed, listAllShadowed_setBackfaceList cs]

theorem listAllShadowed_setBackfaceList (l : List SceneNode) :
    listAllShadowed (setBackfaceList l) = listAllShadowed l := by
  cases l with
  | nil => rfl
  | cons c rest =>
    simp [setBackfaceList, listAllShadowed, nodeAllShadowed_setBackfaceNode c,
      listAllShadowed_setBackfaceList rest]

end

theorem replaceChildMaterial_eq_total (lib : JSString → Option MeshMaterial)
    (c : SceneNode) (h : (SceneNode.material c).isSome = true) :
    replaceChildMaterial lib c = some (replaceChildMaterialTotal lib c) := by
  cases hm : c.material with
  | none => simp [hm] at h
  | some mm =>
    unfold replaceChildMaterial replaceChildMaterialTotal
    simp only [hm]
    cases lib mm.name <;> rfl

theorem materialIds_replaceChildMaterialTotal (lib : JSString → Option MeshMaterial)
    (c : SceneNode) :
    ((replaceChildMaterialTotal lib c).material).map MeshMaterial.id =
      (c.material).map (mtlTargetId lib) := by
  unfold replaceChildMaterialTotal mtlTargetId
  cases hm : c.material with
  | none => simp [hm]
  | some mm =>
    simp only [hm]
    cases hl : lib mm.name <;> simp [hl, material_withMaterial, hm]

theorem mapM_replaceChildMaterial (lib : JSString → Option MeshMaterial)
    (l : List SceneNode) (h : ∀ c ∈ l, (SceneNode.material c).isSome = true) :
    l.mapM (replaceChildMaterial lib) =
      some (l.map (replaceChildMaterialTotal lib)) := by
  induction l with
  | nil => rfl
  | cons c rest ih =>
    rw [List.mapM_cons,
      replaceChildMaterial_eq_total lib c (h c (List.mem_cons_self c rest)),
      ih (fun x hx => h x (List.mem_cons_of_mem c hx))]
    rfl

/-- Claim C4: a descriptor whose lowercased filename extension is neither
`obj` nor `gltf` makes `loadMesh` resolve — not reject and not throw — with
the `object` field absent and the descriptor passed through. -/
theorem loadMesh_unknown_extension (freshId : ℕ)
    (mtlLib : JSString → JSString → Option MeshMaterial)
    (rawObj : JSString → SceneNode) (rawGltfScenes : JSString → List SceneNode)
    (envTexId : ℕ) (model : Model3D)
    (h1 : fileExtension model.filename ≠ "obj".toList)
    (h2 : fileExtension model.filename ≠ "gltf".toList) :
    loadMesh freshId mtlLib rawObj rawGltfScenes envTexId model =
      some (.resolved { object := none, model := model }) := by
  simp only [loadMesh]
  rw [if_neg h1, if_neg h2]

/-- Witness for C4 at a concrete `fbx` descriptor. -/
theorem loadMesh_unknown_extension_witness :
    loadMesh 0 (fun _ _ => none) (fun _ => .node false none false false [])
      (fun _ => []) 0
      { filename := "chair.fbx".toList
      , materialInfo := .rawTextures ['d'] none false } =
      some (.resolved
        { object := none
        , model := { filename := "chair.fbx".toList
                   , materialInfo := .rawTextures ['d'] none false } }) :=
  loadMesh_unknown_extension 0 (fun _ _ => none)
    (fun _ => .node false none false false []) (fun _ => []) 0
    { filename := "chair.fbx".toList
    , materialInfo := .rawTextures ['d'] none false }
    (by decide) (by decide)

/-- Claim C5: the raw-texture branch of `loadMaterial` builds exactly one
material out of the given diffuse and optional normal texture and assigns
that single material instance to every child node — in particular every
child surface node — of the loaded subtree: afterwards all children
reference one identical material object. -/
theorem loadMaterial_raw_shared (freshId : ℕ)
    (mtlLib : JSString → JSString → Option MeshMaterial) (object : SceneNode)
    (diffuse : JSString) (normal : Option JSString) (rb : Bool) :
    ∃ result,
      loadMaterial freshId mtlLib object (.rawTextures diffuse normal rb) =
        some result ∧
      result.children.length = object.children.length ∧
      ∃ m : MeshMaterial, m.id = freshId ∧ m.map = some diffuse ∧
        m.normalMap = normal ∧ ∀ c ∈ result.children, c.material = some m := by
  cases rb with
  | false =>
    have hres : loadMaterial freshId mtlLib object
        (.rawTextures diffuse normal false) =
        some (object.withChildren (object.children.map (fun c =>
          c.withMaterial (some (⟨freshId, [], some diffuse, normal, none, 1,
            false, false⟩ : MeshMaterial))))) := rfl
    refine ⟨_, hres, ?_, ⟨freshId, [], some diffuse, normal, none, 1, false, false⟩,
      rfl, rfl, rfl, ?_⟩
    · rw [children_withChildren]
      exact List.length_map _ _
    · intro c hc
      rw [children_withChildren] at hc
      rcases List.mem_map.mp hc with ⟨c', _, rfl⟩
      exact material_withMaterial c' _
  | true =>
    have hres : loadMaterial freshId mtlLib object
        (.rawTextures diffuse normal true) =
        some (setBackfaceNode (object.withChildren (object.children.map (fun c =>
          c.withMaterial (some (⟨freshId, [], some diffuse, normal, none, 1,
            false, false⟩ : MeshMaterial)))))) := rfl
    refine ⟨_, hres, ?_, ⟨freshId, [], some diffuse, normal, none, 1, false, true⟩,
      rfl, rfl, rfl, ?_⟩
    · rw [children_setBackfaceNode, setBackfaceList_eq, children_withChildren]
      simp [List.length_map]
    · intro c hc
      rw [children_setBackfaceNode, setBackfaceList_eq, children_withChildren] at hc
      rcases List.mem_map.mp hc with ⟨c', hc', rfl⟩
      rcases List.mem_map.mp hc' with ⟨c'', _, rfl⟩
      rw [material_setBackfaceNode, material_withMaterial]
      rfl

/-- Witness for C5: a one-child object loaded from raw textures; every child
carries the single freshly built material. -/
theorem loadMaterial_raw_shared_witness :
    ∃ result,
      loadMaterial 7 (fun _ _ => none)
          (.node false none false false
            [.node true (some ⟨0, ['x'], none, none, none, 1, false, false⟩)
              false false []])
          (.rawTextures ['d'] none false) = some result ∧
      result.children.length = (SceneNode.node false none false false
          [.node true (some ⟨0, ['x'], none, none, none, 1, false, false⟩)
            false false []]).children.length ∧
      ∃ m : MeshMaterial, m.id = 7 ∧ m.map = some ['d'] ∧ m.normalMap = none ∧
        ∀ c ∈ result.children, c.material = some m :=
  loadMaterial_raw_shared 7 (fun _ _ => none)
    (.node false none false false
      [.node true (some ⟨0, ['x'], none, none, none, 1, false, false⟩)
        false false []])
    ['d'] none false

/-- Claim C8: in the MTL branch of `loadMaterial`, once the material file
has loaded, each child surface node whose material name has a match in the
loaded library ends up referencing the matching material, and each child
whose name has no match keeps its default material; the lookup is total —
a mismatch resolves normally instead of erroring. -/
theorem loadMaterial_mtl_lookup (freshId : ℕ)
    (mtlLib : JSString → JSString → Option MeshMaterial) (object : SceneNode)
    (mtlPath : JSString) (rb : Bool)
    (h : ∀ c ∈ object.children, (SceneNode.material c).isSome = true) :
    ∃ result,
      loadMaterial freshId mtlLib object (.fromMaterialFile mtlPath rb) =
        some result ∧
      result.children.length = object.children.length ∧
      ∀ (i : ℕ) (h1 : i < result.children.length)
          (h2 : i < object.children.length),
        ((result.children.get ⟨i, h1⟩).material).map MeshMaterial.id =
          ((object.children.get ⟨i, h2⟩).material).map
            (mtlTargetId (mtlLib mtlPath)) := by
  have hmapM := mapM_replaceChildMaterial (mtlLib mtlPath) object.children h
  cases rb with
  | false =>
    refine ⟨object.withChildren (object.children.map
        (replaceChildMaterialTotal (mtlLib mtlPath))), ?_, ?_, ?_⟩
    · simp only [loadMaterial]
      rw [hmapM]
      rfl
    · rw [children_withChildren]
      exact List.length_map _ _
    · intro i h1 h2
      rw [List.get_of_eq (children_withChildren object _) ⟨i, h1⟩, List.get_map]
      exact materialIds_replaceChildMaterialTotal (mtlLib mtlPath) _
  | true =>
    refine ⟨setBackfaceNode (object.withChildren (object.children.map
        (replaceChildMaterialTotal (mtlLib mtlPath)))), ?_, ?_, ?_⟩
    · simp only [loadMaterial]
      rw [hmapM]
      rfl
    · rw [children_setBackfaceNode, setBackfaceList_eq, children_withChildren]
      simp [List.length_map]
    · intro i h1 h2
      rw [List.get_of_eq ((children_setBackfaceNode _).trans
        ((congrArg setBackfaceList (children_withChildren object _)).trans
          (setBackfaceList_eq _))) ⟨i, h1⟩, List.get_map]
      rw [materialIds_setBackfaceNode, List.get_map]
      exact materialIds_replaceChildMaterialTotal (mtlLib mtlPath) _

/-- Witness for C8: two children, one material name matching the library and
one not; the first is replaced, the second keeps its default material. -/
theorem loadMaterial_mtl_lookup_witness :
    ∃ result,
      loadMaterial 0
          (fun _ nm => if nm = ['a'] then
            some ⟨9, ['a'], none, none, none, 1, false, false⟩ else none)
          (.node false none false false
            [.node true (some ⟨1, ['a'], none, none, none, 1, false, false⟩)
              false false [],
             .node true (some ⟨2, ['b'], none, none, none, 1, false, false⟩)
              false false []])
          (.fromMaterialFile ['m'] false) = some result ∧
      result.children.length = (SceneNode.node false none false false
          [.node true (some ⟨1, ['a'], none, none, none, 1, false, false⟩)
            false false [],
           .node true (some ⟨2, ['b'], none, none, none, 1, false, false⟩)
            false false []]).children.length ∧
      ∀ (i : ℕ) (h1 : i < result.children.length)
          (h2 : i < (SceneNode.node false none false false
            [.node true (some ⟨1, ['a'], none, none, none, 1, false, false⟩)
              false false [],
             .node true (some ⟨2, ['b'], none, none, none, 1, false, false⟩)
              false false []]).children.length),
        ((result.children.get ⟨i, h1⟩).material).map MeshMaterial.id =
          (((SceneNode.node false none false false
            [.node true (some ⟨1, ['a'], none, none, none, 1, false, false⟩)
              false false [],
             .node true (some ⟨2, ['b'], none, none, none, 1, false, false⟩)
              false false []]).children.get ⟨i, h2⟩).material).map
            (mtlTargetId ((fun _ nm => if nm = ['a'] then
              some ⟨9, ['a'], none, none, none, 1, false, false⟩ else none) ['m'])) :=
  loadMaterial_mtl_lookup 0
    (fun _ nm => if nm = ['a'] then
      some ⟨9, ['a'], none, none, none, 1, false, false⟩ else none)
    (.node false none false false
      [.node true (some ⟨1, ['a'], none, none, none, 1, false, false⟩)
        false false [],
       .node true (some ⟨2, ['b'], none, none, none, 1, false, false⟩)
        false false []])
    ['m'] false (by decide)

/-- Claim C10: whenever the per-format loading completes and the `loadMesh`
promise settles, it resolves (never rejects) and the delivered `model` field
is the very descriptor that was passed in. -/
theorem loadMesh_model_passthrough (freshId : ℕ)
    (mtlLib : JSString → JSString → Option MeshMaterial)
    (rawObj : JSString → SceneNode) (rawGltfScenes : JSString → List SceneNode)
    (envTexId : ℕ) (model : Model3D) (pr : PromiseResult ModelLoadedEventData)
    (h : loadMesh freshId mtlLib rawObj rawGltfScenes envTexId model = some pr) :
    ∃ d, pr = .resolved d ∧ d.model = model := by
  simp only [loadMesh] at h
  by_cases h1 : fileExtension model.filename = "obj".toList
  · rw [if_pos h1] at h
    rcases Option.map_eq_some'.mp h with ⟨g, _, hg⟩
    exact ⟨{ object := some g, model := model }, hg.symm, rfl⟩
  · rw [if_neg h1] at h
    by_cases h2 : fileExtension model.filename = "gltf".toList
    · rw [if_pos h2] at h
      injection h with h
      exact ⟨_, h.symm, rfl⟩
    · rw [if_neg h2] at h
      injection h with h
      exact ⟨_, h.symm, rfl⟩

/-- Witness for C10 at a concrete descriptor with an unknown extension. -/
theorem loadMesh_model_passthrough_witness :
    ∃ d, (PromiseResult.resolved
        { object := none
        , model := { filename := "a.xyz".toList
                   , materialInfo := .rawTextures ['d'] none false } } :
        PromiseResult ModelLoadedEventData) = .resolved d ∧
      d.model = { filename := "a.xyz".toList
                , materialInfo := .rawTextures ['d'] none false } :=
  loadMesh_model_passthrough 0 (fun _ _ => none)
    (fun _ => .node false none false false []) (fun _ => []) 0
    { filename := "a.xyz".toList, materialInfo := .rawTextures ['d'] none false }
    (.resolved
      { object := none
      , model := { filename := "a.xyz".toList
                 , materialInfo := .rawTextures ['d'] none false } })
    (by rfl)

/-- Claim C7, amended: after a successful load of a supported format, the
shadow pass applies both flags recursively and unconditionally — for `obj`
every node of the delivered subtree, its root included, carries both flags;
for `gltf` every node strictly below the delivered root carries both flags,
while the synthetic root container itself keeps its default (false) flags. -/
theorem loadMesh_shadow_flags (freshId : ℕ)
    (mtlLib : JSString → JSString → Option MeshMaterial)
    (rawObj : JSString → SceneNode) (rawGltfScenes : JSString → List SceneNode)
    (envTexId : ℕ) (model : Model3D) (d : ModelLoadedEventData) (o : SceneNode)
    (hload : loadMesh freshId mtlLib rawObj rawGltfScenes envTexId model =
      some (.resolved d))
    (hobj : d.object = some o) :
    (fileExtension model.filename = "obj".toList → nodeAllShadowed o = true) ∧
      (fileExtension model.filename = "gltf".toList →
        listAllShadowed o.children = true ∧
          o.castShadow = false ∧ o.receiveShadow = false) := by
  simp only [loadMesh] at hload
  by_cases h1 : fileExtension model.filename = "obj".toList
  · rw [if_pos h1] at hload
    rcases Option.map_eq_some'.mp hload with ⟨g, hg, hres⟩
    injection hres with hres
    subst hres
    simp only at hobj
    obtain rfl : g = o := by injection hobj
    unfold loadObjCompleted at hg
    rcases Option.map_eq_some'.mp hg with ⟨g', _, hset⟩
    constructor
    · intro _
      rw [← hset]
      exact nodeAllShadowed_setShadowNode g'
    · intro h2
      exact absurd (h1.symm.trans h2) (by decide)
  · rw [if_neg h1] at hload
    by_cases h2 : fileExtension model.filename = "gltf".toList
    · rw [if_pos h2] at hload
      injection hload with hload
      injection hload with hload
      subst hload
      simp only at hobj
      obtain rfl : loadGltfCompleted (rawGltfScenes model.filename) envTexId
          model.materialInfo = o := by injection hobj
      refine ⟨fun hx => absurd hx h1, fun _ => ⟨?_, rfl, rfl⟩⟩
      unfold loadGltfCompleted
      simp only [SceneNode.children]
      by_cases hrb : model.materialInfo.renderBackface = true
      · rw [if_pos hrb, listAllShadowed_setBackfaceList,
          listAllShadowed_setEnvList, listAllShadowed_setShadowList]
      · rw [if_neg hrb, listAllShadowed_setEnvList, listAllShadowed_setShadowList]
    · rw [if_neg h2] at hload
      injection hload with hload
      injection hload with hload
      subst hload
      simp only at hobj
      exact absurd hobj (by simp)

/-- Witness for C7 (amended) at a concrete obj load: the delivered subtree
has both flags on every node. -/
theorem loadMesh_shadow_flags_witness :
    nodeAllShadowed (SceneNode.node false none true true
      [SceneNode.node true (some ⟨5, [], some ['d'], none, none, 1, false, false⟩)
        true true []]) = true :=
  (loadMesh_shadow_flags 5 (fun _ _ => none)
    (fun _ => .node false none false false
      [.node true (some ⟨0, ['x'], none, none, none, 1, false, false⟩)
        false false []])
    (fun _ => []) 0
    { filename := "a.obj".toList, materialInfo := .rawTextures ['d'] none false }
    { object := some (SceneNode.node false none true true
        [SceneNode.node true (some ⟨5, [], some ['d'], none, none, 1, false, false⟩)
          true true []])
    , model := { filename := "a.obj".toList
               , materialInfo := .rawTextures ['d'] none false } }
    (SceneNode.node false none true true
      [SceneNode.node true (some ⟨5, [], some ['d'], none, none, 1, false, false⟩)
        true true []])
    (by rfl) rfl).1 (by decide)

/-- Counterexample to claim C7 as stated: a successful gltf load delivers a
subtree in which not every node carries both shadow flags — the synthetic
root container keeps its default false flags. -/
theorem loadMesh_shadow_flags_counterexample :
    (loadMesh 0 (fun _ _ => none) (fun _ => .node false none false false [])
        (fun _ => [.node false none false false
          [.node true (some ⟨1, [], none, none, none, 1, false, false⟩)
            false false []]])
        7 { filename := "a.gltf".toList
          , materialInfo := .rawTextures ['d'] none false }).map
      deliveredAllShadowed = some false := by
  rfl
